import Mathlib

/-!
Verification of the SuiFlow USSD wallet backend.

This file gives a shallow embedding of the core of the SuiFlow repository:
the USSD session state machine (`src/api/src/routes/ussd.js`), the
authenticated HTTP transaction route (`src/api/src/routes/transaction.js`),
the SQLite-backed persistence helpers (`getUser`, `updateUser`,
`addTransaction` from the database service) and the PIN hashing scheme
(`hashPinPhone` / `verifyPinPhone` from the encryption utilities).

External collaborators (the Sui blockchain client, PBKDF2/AES crypto
primitives) are modelled as opaque function parameters carried in
environment structures; the control flow around them is translated
statement by statement from the JavaScript source.  Amounts are exact
rationals (the concrete amounts exercised here are all exactly
representable as IEEE doubles, so comparisons agree with JavaScript).
-/

-- Rational arithmetic must evaluate inside `decide` proofs; restore kernel
-- transparency for the arithmetic core of `Rat`.
attribute [local semireducible] Rat.add Rat.mul Rat.inv Rat.sub Rat.ofScientific

namespace SuiFlow

/-! ### Constants (src/api/src/constants.js) -/

/-- `MAX_FAILED_ATTEMPTS = 3` (src/api/src/constants.js). -/
def MAX_FAILED_ATTEMPTS : Nat := 3

/-- `NEW_USER_FUNDING_AMOUNT = 0.02` (src/api/src/constants.js). -/
def NEW_USER_FUNDING_AMOUNT : ℚ := 2 / 100

/-- The string JavaScript produces for the template `${NEW_USER_FUNDING_AMOUNT}`:
`String(0.02) = "0.02"`. -/
def NEW_USER_FUNDING_AMOUNT_STR : String := "0.02"

/-! ### String and number helpers -/

/-- The regex test `/^\d{4}$/.test(s)` used for PIN inputs. -/
def isPin4 (s : String) : Bool :=
  s.data.length = 4 && s.data.all Char.isDigit

/-- The regex test `/^\+?[1-9]\d{1,14}$/.test(s)` used for phone inputs. -/
def isValidPhoneStr (s : String) : Bool :=
  let cs := match s.data with
    | '+' :: r => r
    | r => r
  match cs with
  | [] => false
  | c :: rest =>
      ('1' ≤ c && c ≤ '9') && (1 ≤ rest.length && rest.length ≤ 14)
        && rest.all Char.isDigit

/-- JavaScript `String.prototype.trim()`: strip whitespace from both ends. -/
def jsTrim (s : String) : String :=
  String.mk (((s.data.dropWhile Char.isWhitespace).reverse.dropWhile
    Char.isWhitespace).reverse)

/-- The regex test `/^[a-zA-Z\s]+$/.test(s)` used for name inputs
(`\s` modelled by `Char.isWhitespace`). -/
def isNameStr (s : String) : Bool :=
  !s.data.isEmpty && s.data.all (fun c => c.isAlpha || c.isWhitespace)

/-- Value of a list of decimal digit characters. -/
def digitsVal (cs : List Char) : Nat :=
  cs.foldl (fun a c => a * 10 + (c.toNat - 48)) 0

/-- JavaScript `parseFloat`: an optional sign followed by the longest prefix
`digits [ '.' digits ]`; `none` models `NaN` (no digit found).  Exponent
suffixes and leading whitespace never occur in this program's inputs. -/
def parseFloat (s : String) : Option ℚ :=
  let (sign, cs) : ℚ × List Char :=
    match s.data with
    | '-' :: r => (-1, r)
    | '+' :: r => (1, r)
    | r => (1, r)
  let intPart := cs.takeWhile Char.isDigit
  let rest := cs.dropWhile Char.isDigit
  let fracPart :=
    match rest with
    | '.' :: r => r.takeWhile Char.isDigit
    | _ => []
  if intPart.isEmpty && fracPart.isEmpty then none
  else
    some (sign * ((digitsVal intPart : ℚ)
      + (digitsVal fracPart : ℚ) / (10 : ℚ) ^ fracPart.length))

/-- Left-pad a numeral with zeros to `d` characters. -/
def natPad (s : String) (d : Nat) : String :=
  String.mk (List.replicate (d - s.length) '0') ++ s

/-- JavaScript `Number.prototype.toFixed(d)` for the non-negative exact
decimal values this program formats (no rounding ambiguity arises). -/
def toFixed (q : ℚ) (d : Nat) : String :=
  let m : ℤ := Rat.floor (q * (10 : ℚ) ^ d + 1 / 2)
  let a := m.natAbs
  let ipart := a / 10 ^ d
  let fpart := a % 10 ^ d
  (if m < 0 then "-" else "") ++ toString ipart
    ++ (if d = 0 then "" else "." ++ natPad (toString fpart) d)

/-- `formatSuiAmount` (src/api/src/routes/ussd.js): display formatting of a
SUI amount. -/
def formatSuiAmount (amount : ℚ) : String :=
  if amount = 0 then "0 SUI"
  else if amount < 1 / 1000 then toFixed amount 6 ++ " SUI"
  else toFixed amount 3 ++ " SUI"

/-! ### Data model (users and transactions tables, src database service) -/

/-- A row of the `users` table.  `walletObjectId` is absent from the USSD
registration path (the schema in the database service has no such column;
the HTTP transaction route reads it and falls back when it is `none`). -/
structure User where
  phone : String
  fullName : String
  suiAddress : String
  publicKey : String
  encryptedMnemonic : String
  pinHash : String
  failedAttempts : Nat
  walletObjectId : Option String
deriving DecidableEq, Repr

/-- A row of the `transactions` table (`id` is the SQLite autoincrement). -/
structure Txn where
  id : Nat
  senderPhone : String
  receiverPhone : String
  amount : ℚ
  txHash : Option String
  status : String
  errorMessage : Option String
deriving DecidableEq, Repr

/-- The argument object of `addTransaction` (database service); `status`
defaults to `'pending'` as in the source. -/
structure TxnData where
  senderPhone : String
  receiverPhone : String
  amount : ℚ
  txHash : Option String := none
  status : String := "pending"
  errorMessage : Option String := none
deriving DecidableEq, Repr

/-- `getUser(phone)`: `SELECT * FROM users WHERE phone = ?`. -/
def getUser (users : List User) (phone : String) : Option User :=
  users.find? (fun u => u.phone == phone)

/-- `updateUser(phone, { failedAttempts })`: the only field the modelled
routes ever update is `failedAttempts`
(`UPDATE users SET failedAttempts = ? WHERE phone = ?`). -/
def updateUser (users : List User) (phone : String) (fa : Nat) : List User :=
  users.map (fun u => if u.phone == phone then { u with failedAttempts := fa } else u)

/-- `registerUser(userData)`: `INSERT INTO users ...`. -/
def registerUser (users : List User) (u : User) : List User :=
  users ++ [u]

/-- `addTransaction(transactionData)`: `INSERT INTO transactions ...`,
returning the fresh autoincrement id.  Note this always INSERTS a new row;
the database service has no function that updates an existing row. -/
def addTransaction (txns : List Txn) (d : TxnData) : Nat × List Txn :=
  let id := txns.length + 1
  (id, txns ++ [⟨id, d.senderPhone, d.receiverPhone, d.amount, d.txHash,
    d.status, d.errorMessage⟩])

/-- `getUserTransactions(phone, limit, offset)` with `offset = 0`:
rows involving `phone`, newest first (`ORDER BY timestamp DESC`). -/
def getUserTransactions (txns : List Txn) (phone : String) (limit : Nat) :
    List Txn :=
  ((txns.filter (fun t => t.senderPhone == phone || t.receiverPhone == phone)).reverse).take limit

/-! ### PIN hashing (src encryption utilities) -/

/-- The external PBKDF2 derivation, abstracted: `pbkdf2 s` models
`CryptoJS.PBKDF2(s, ENCRYPTION_SALT, ...).toString()`. -/
structure CryptoEnv where
  pbkdf2 : String → String

/-- `hashPinPhone(pin, phone)`: PBKDF2 over the combined string
`` `${pin}:${phone}` ``. -/
def hashPinPhone (env : CryptoEnv) (pin phone : String) : String :=
  env.pbkdf2 (pin ++ ":" ++ phone)

/-- `verifyPinPhone(submittedPin, submittedPhone, storedHash)`: recompute the
hash and compare to the stored one. -/
def verifyPinPhone (env : CryptoEnv) (pin phone storedHash : String) : Bool :=
  if pin = "" || phone = "" || storedHash = "" then false
  else hashPinPhone env pin phone == storedHash

/-! ### External transfer results (src/api/src/services sui service) -/

/-- The two return shapes of `sendSui` / `internalTransfer`: either
`{status:'success', digest, explorerUrl}` or `{status:'failed', error}`.
Both functions catch every internal exception and return the failed shape. -/
inductive TransferResult where
  | success (digest : String) (explorerUrl : String)
  | failed (error : String)
deriving DecidableEq, Repr

/-- `result.digest` (null on failure). -/
def TransferResult.digestOpt : TransferResult → Option String
  | .success d _ => some d
  | .failed _ => none

/-- `result.status === 'success' ? 'success' : 'failed'`. -/
def TransferResult.statusStr : TransferResult → String
  | .success _ _ => "success"
  | .failed _ => "failed"

/-- `result.error` (undefined on success). -/
def TransferResult.errorOpt : TransferResult → Option String
  | .success _ _ => none
  | .failed e => some e

/-! ### USSD sessions (src/api/src/routes/ussd.js) -/

/-- `USSD_STATES` (src/api/src/constants.js). -/
inductive UssdState where
  | mainMenu
  | registerName
  | registerPin
  | registerConfirmPin
  | sendPhone
  | sendAmount
  | sendPin
  | balancePin
deriving DecidableEq, Repr

/-- The `session.data` object.  The source merges updates with
`{ ...session.data, ...data }`, so fields accumulate and are never removed;
absent fields are `none` (JavaScript `undefined`). -/
structure SessionData where
  fullName : Option String := none
  pin : Option String := none
  receiverPhone : Option String := none
  receiverName : Option String := none
  amount : Option ℚ := none
deriving DecidableEq, Repr

/-- A USSD session (`lastActivity` bookkeeping is irrelevant to the
properties proved here and omitted). -/
structure Session where
  state : UssdState
  data : SessionData
deriving DecidableEq, Repr

/-- The session a fresh subscriber gets from `getSession`. -/
def freshSession : Session := ⟨.mainMenu, {}⟩

/-- Result of one USSD handler invocation: the protocol response plus the
users/transactions tables after the handler's awaited writes, and the
session to store (`none` when the handler called `clearSession`, which all
terminal `END` paths do). -/
structure StepOut where
  response : String
  users : List User
  txns : List Txn
  sess : Option Session
deriving Repr

/-- External collaborators of the USSD route, abstracted: PIN hashing, the
Sui client (`getBalance`, `sendSui`), the AES mnemonic encryption, and the
wallet produced by `createUserWallet()` during a registration. -/
structure UssdEnv where
  crypto : CryptoEnv
  getBalance : String → ℚ
  sendSui : String → String → ℚ → TransferResult
  decryptMnemonic : String → String → String
  encryptMnemonic : String → String → String
  walletAddress : String
  walletPublicKey : String
  walletMnemonic : String

/-- `'END Account Locked\n\nToo many failed PIN attempts.\nPlease contact support.'` -/
def lockoutMsg : String :=
  "END Account Locked\n\nToo many failed PIN attempts.\nPlease contact support."

/-- The invalid-PIN re-prompt of `handleSendPin`. -/
def sendInvalidPinMsg (remaining : Nat) : String :=
  "CON Send SUI\n\nInvalid PIN.\n" ++ toString remaining
    ++ " attempt(s) remaining.\n\nEnter your 4-digit PIN:"

/-- The invalid-PIN re-prompt of `handleBalancePin`. -/
def balanceInvalidPinMsg (remaining : Nat) : String :=
  "CON Check Balance\n\nInvalid PIN.\n" ++ toString remaining
    ++ " attempt(s) remaining.\n\nEnter your 4-digit PIN:"

/-- The generic catch-all of `handleSendPin`'s try/catch. -/
def sendGenericErrorMsg : String :=
  "END Transaction failed.\n\nPlease try again later."

/-- The generic catch-all of `handleBalancePin`'s try/catch. -/
def balanceGenericErrorMsg : String :=
  "END Error checking balance.\n\nPlease try again later."

/-- The terminal response of the send flow, built from the awaited transfer
result (`result.digest.slice(0, 16)` on success,
`result.error || 'Unknown error occurred'` on failure). -/
def sendResultMsg (amount : ℚ) (receiverName : String) : TransferResult → String
  | .success digest _ =>
      "END Transaction Successful!\n\nSent: " ++ formatSuiAmount amount
        ++ "\nTo: " ++ receiverName ++ "\n\nTX Hash: " ++ digest.take 16 ++ "..."
  | .failed e =>
      "END Transaction Failed\n\n" ++ (if e = "" then "Unknown error occurred" else e)

/-- `handleSendPin` (src/api/src/routes/ussd.js:437-522).  PIN format gate,
PIN verification with failed-attempt bookkeeping, fresh balance check,
awaited external transfer, single transaction log write, terminal response.
A missing user / amount / receiver raises a TypeError in the source which
the surrounding try/catch converts into the generic terminal response with
the session cleared; those branches are modelled directly by that outcome. -/
def handleSendPin (env : UssdEnv) (users : List User) (txns : List Txn)
    (phone input : String) (sess : Session) : StepOut :=
  if !(isPin4 input) then
    { response := "CON Send SUI\n\nTo: " ++ (sess.data.receiverName.getD "undefined")
        ++ "\nAmount: " ++ formatSuiAmount (sess.data.amount.getD 0)
        ++ "\n\nPIN must be 4 digits.\nEnter your 4-digit PIN:",
      users := users, txns := txns, sess := some sess }
  else
    match getUser users phone with
    | none => { response := sendGenericErrorMsg, users := users, txns := txns, sess := none }
    | some user =>
      if !(verifyPinPhone env.crypto input phone user.pinHash) then
        let newFA := user.failedAttempts + 1
        let users' := updateUser users phone newFA
        if MAX_FAILED_ATTEMPTS ≤ newFA then
          { response := lockoutMsg, users := users', txns := txns, sess := none }
        else
          { response := sendInvalidPinMsg (MAX_FAILED_ATTEMPTS - newFA),
            users := users', txns := txns, sess := some sess }
      else
        let users' := if 0 < user.failedAttempts then updateUser users phone 0 else users
        match sess.data.amount with
        | none => { response := sendGenericErrorMsg, users := users', txns := txns, sess := none }
        | some amount =>
          let balance := env.getBalance user.suiAddress
          if balance < amount then
            { response := "END Insufficient Balance\n\nYou have: " ++ formatSuiAmount balance
                ++ "\nTrying to send: " ++ formatSuiAmount amount,
              users := users', txns := txns, sess := none }
          else
            match getUser users' (sess.data.receiverPhone.getD "") with
            | none => { response := sendGenericErrorMsg, users := users', txns := txns, sess := none }
            | some receiver =>
              let mnemonic := env.decryptMnemonic user.encryptedMnemonic input
              let result := env.sendSui mnemonic receiver.suiAddress amount
              let txns' := (addTransaction txns
                { senderPhone := phone,
                  receiverPhone := sess.data.receiverPhone.getD "",
                  amount := amount,
                  txHash := result.digestOpt,
                  status := result.statusStr,
                  errorMessage := result.errorOpt }).2
              { response := sendResultMsg amount (sess.data.receiverName.getD "undefined") result,
                users := users', txns := txns', sess := none }

/-- `handleBalancePin` (src/api/src/routes/ussd.js:527-577). -/
def handleBalancePin (env : UssdEnv) (users : List User) (txns : List Txn)
    (phone input : String) (sess : Session) : StepOut :=
  if !(isPin4 input) then
    { response := "CON Check Balance\n\nPIN must be 4 digits.\nEnter your 4-digit PIN:",
      users := users, txns := txns, sess := some sess }
  else
    match getUser users phone with
    | none => { response := balanceGenericErrorMsg, users := users, txns := txns, sess := none }
    | some user =>
      if !(verifyPinPhone env.crypto input phone user.pinHash) then
        let newFA := user.failedAttempts + 1
        let users' := updateUser users phone newFA
        if MAX_FAILED_ATTEMPTS ≤ newFA then
          { response := lockoutMsg, users := users', txns := txns, sess := none }
        else
          { response := balanceInvalidPinMsg (MAX_FAILED_ATTEMPTS - newFA),
            users := users', txns := txns, sess := some sess }
      else
        let users' := if 0 < user.failedAttempts then updateUser users phone 0 else users
        let balance := env.getBalance user.suiAddress
        { response := "END Your SuiFlow Balance\n\n" ++ formatSuiAmount balance
            ++ "\n\nAddress: " ++ user.suiAddress.take 16 ++ "...",
          users := users', txns := txns, sess := none }

/-- `handleSendPhone` (src/api/src/routes/ussd.js:345-389): recipient phone
entry with format, self-transfer and existence checks. -/
def handleSendPhone (users : List User) (txns : List Txn)
    (phone input : String) (sess : Session) : StepOut :=
  if input = "" then
    { response := "CON Send SUI\n\nEnter recipient\x27s phone number:",
      users := users, txns := txns, sess := some sess }
  else if !(isValidPhoneStr input) then
    { response := "CON Send SUI\n\nInvalid phone number format.\nEnter recipient\x27s phone number:",
      users := users, txns := txns, sess := some sess }
  else if input = phone then
    { response := "CON Send SUI\n\nCannot send to yourself.\nEnter recipient\x27s phone number:",
      users := users, txns := txns, sess := some sess }
  else
    match getUser users input with
    | none =>
      { response := "CON Send SUI\n\nRecipient not found.\nMake sure they are registered.\nEnter recipient\x27s phone number:",
        users := users, txns := txns, sess := some sess }
    | some receiver =>
      { response := "CON Send SUI\n\nTo: " ++ receiver.fullName ++ "\nPhone: " ++ input
          ++ "\n\nEnter amount (SUI):",
        users := users, txns := txns,
        sess := some ⟨.sendAmount,
          { sess.data with receiverPhone := some input,
                           receiverName := some receiver.fullName }⟩ }

/-- `handleSendAmount` (src/api/src/routes/ussd.js:394-432): amount entry
with `parseFloat`, positivity, and MIN/MAX bounds checks. -/
def handleSendAmount (users : List User) (txns : List Txn)
    (phone input : String) (sess : Session) : StepOut :=
  let toName := sess.data.receiverName.getD "undefined"
  if input = "" then
    { response := "CON Send SUI\n\nTo: " ++ toName ++ "\n\nEnter amount (SUI):",
      users := users, txns := txns, sess := some sess }
  else
    match parseFloat input with
    | none =>
      { response := "CON Send SUI\n\nTo: " ++ toName ++ "\n\nInvalid amount.\nEnter amount (SUI):",
        users := users, txns := txns, sess := some sess }
    | some amount =>
      if amount ≤ 0 then
        { response := "CON Send SUI\n\nTo: " ++ toName ++ "\n\nInvalid amount.\nEnter amount (SUI):",
          users := users, txns := txns, sess := some sess }
      else if amount < 1 / 1000000 then
        { response := "CON Send SUI\n\nTo: " ++ toName
            ++ "\n\nMinimum amount is 0.000001 SUI.\nEnter amount (SUI):",
          users := users, txns := txns, sess := some sess }
      else if amount > 1000000 then
        { response := "CON Send SUI\n\nTo: " ++ toName
            ++ "\n\nMaximum amount is 1,000,000 SUI.\nEnter amount (SUI):",
          users := users, txns := txns, sess := some sess }
      else
        { response := "CON Send SUI\n\nTo: " ++ toName ++ "\nAmount: " ++ formatSuiAmount amount
            ++ "\n\nEnter your 4-digit PIN to confirm:",
          users := users, txns := txns,
          sess := some ⟨.sendPin, { sess.data with amount := some amount }⟩ }

/-- `handleRegisterName` (src/api/src/routes/ussd.js:246-265). -/
def handleRegisterName (users : List User) (txns : List Txn)
    (phone input : String) (sess : Session) : StepOut :=
  if input = "" || ((jsTrim input).data.length < 2) then
    { response := "CON Register for SuiFlow\n\nPlease enter a valid name (at least 2 characters):",
      users := users, txns := txns, sess := some sess }
  else
    let fullName := jsTrim input
    if !(isNameStr fullName) then
      { response := "CON Register for SuiFlow\n\nName can only contain letters and spaces.\nPlease enter your full name:",
        users := users, txns := txns, sess := some sess }
    else
      { response := "CON Register for SuiFlow\n\nName: " ++ fullName ++ "\n\nCreate a 4-digit PIN:",
        users := users, txns := txns,
        sess := some ⟨.registerPin, { sess.data with fullName := some fullName }⟩ }

/-- `handleRegisterPin` (src/api/src/routes/ussd.js:270-282). -/
def handleRegisterPin (users : List User) (txns : List Txn)
    (phone input : String) (sess : Session) : StepOut :=
  if !(isPin4 input) then
    { response := "CON Register for SuiFlow\n\nPIN must be exactly 4 digits.\nCreate a 4-digit PIN:",
      users := users, txns := txns, sess := some sess }
  else
    { response := "CON Register for SuiFlow\n\nConfirm your 4-digit PIN:",
      users := users, txns := txns,
      sess := some ⟨.registerConfirmPin, { sess.data with pin := some input }⟩ }

/-- `handleRegisterConfirmPin` (src/api/src/routes/ussd.js:287-340).  On
mismatch the source stores
`updateSession(phone, REGISTER_PIN, { fullName: session.data.fullName })`,
whose merge with the existing data leaves every field (including `pin`)
unchanged.  On match it re-checks existence, creates the wallet, registers
the user and fires the funding transfer without awaiting it. -/
def handleRegisterConfirmPin (env : UssdEnv) (users : List User) (txns : List Txn)
    (phone input : String) (sess : Session) : StepOut :=
  if input = "" || !(some input == sess.data.pin) then
    { response := "CON Register for SuiFlow\n\nPINs do not match.\nCreate a 4-digit PIN:",
      users := users, txns := txns,
      sess := some ⟨.registerPin, { sess.data with fullName := sess.data.fullName }⟩ }
  else
    match getUser users phone with
    | some _ =>
      { response := "END Registration failed.\n\nPhone number already registered.",
        users := users, txns := txns, sess := none }
    | none =>
      let fullName := sess.data.fullName.getD "undefined"
      let pin := input
      let encryptedMnemonic := env.encryptMnemonic env.walletMnemonic pin
      let pinHash := hashPinPhone env.crypto pin phone
      let users' := registerUser users
        { phone := phone, fullName := fullName, suiAddress := env.walletAddress,
          publicKey := env.walletPublicKey, encryptedMnemonic := encryptedMnemonic,
          pinHash := pinHash, failedAttempts := 0, walletObjectId := none }
      { response := "END Registration Successful!\n\nWelcome " ++ fullName
          ++ "!\nYour SuiFlow wallet is ready.\n\nAddress: " ++ env.walletAddress.take 10
          ++ "...\n\nYou will receive " ++ NEW_USER_FUNDING_AMOUNT_STR
          ++ " SUI for gas fees shortly.",
        users := users', txns := txns, sess := none }

/-- `handleMainMenu` (src/api/src/routes/ussd.js:148-241). -/
def handleMainMenu (users : List User) (txns : List Txn)
    (phone input : String) (sess : Session) : StepOut :=
  match getUser users phone with
  | some user =>
    if input = "" then
      { response := "CON Welcome to SuiFlow\nHello " ++ user.fullName
          ++ "\n\n1. Send SUI\n2. Check Balance\n3. Transaction History\n0. Exit",
        users := users, txns := txns, sess := some ⟨.mainMenu, sess.data⟩ }
    else if input = "1" then
      { response := "CON Send SUI\n\nEnter recipient\x27s phone number:",
        users := users, txns := txns, sess := some ⟨.sendPhone, sess.data⟩ }
    else if input = "2" then
      { response := "CON Check Balance\n\nEnter your 4-digit PIN:",
        users := users, txns := txns, sess := some ⟨.balancePin, sess.data⟩ }
    else if input = "3" then
      let transactions := getUserTransactions txns phone 3
      if transactions.isEmpty then
        { response := "END Transaction History\n\nNo transactions found.",
          users := users, txns := txns, sess := none }
      else
        let nameOf := fun (p : String) =>
          match getUser users p with
          | some u => u.fullName
          | none => "null"
        let body := (transactions.enum.map (fun e =>
          let tx := e.2
          let ty := if tx.senderPhone == phone then "Sent" else "Received"
          let counterparty :=
            if tx.senderPhone == phone then nameOf tx.receiverPhone else nameOf tx.senderPhone
          toString (e.1 + 1) ++ ". " ++ ty ++ " " ++ formatSuiAmount tx.amount
            ++ "\n   " ++ (if ty = "Sent" then "To" else "From") ++ ": " ++ counterparty
            ++ "\n   Status: " ++ tx.status ++ "\n\n")).foldl (· ++ ·)
          "END Recent Transactions\n\n"
        { response := body, users := users, txns := txns, sess := none }
    else if input = "0" then
      { response := "END Thank you for using SuiFlow!",
        users := users, txns := txns, sess := none }
    else
      { response := "CON Invalid option. Please try again.\n\n1. Send SUI\n2. Check Balance\n3. Transaction History\n0. Exit",
        users := users, txns := txns, sess := some sess }
  | none =>
    if input = "" then
      { response := "CON Welcome to SuiFlow\n\nYou are not registered yet.\n\n1. Register\n0. Exit",
        users := users, txns := txns, sess := some ⟨.mainMenu, sess.data⟩ }
    else if input = "1" then
      { response := "CON Register for SuiFlow\n\nEnter your full name:",
        users := users, txns := txns, sess := some ⟨.registerName, sess.data⟩ }
    else if input = "0" then
      { response := "END Thank you for your interest in SuiFlow!",
        users := users, txns := txns, sess := none }
    else
      { response := "CON Invalid option. Please try again.\n\n1. Register\n0. Exit",
        users := users, txns := txns, sess := some sess }

/-! ### The USSD webhook dispatcher -/

/-- The server state the webhook threads: the two database tables and the
in-memory session map. -/
structure World where
  users : List User
  txns : List Txn
  sessions : List (String × Session)
deriving Repr

/-- `getSession(phoneNumber)`: fetch or create. -/
def getSessionW (w : World) (phone : String) : Session :=
  (w.sessions.lookup phone).getD freshSession

/-- Store a session under a phone number. -/
def setSessionW (sessions : List (String × Session)) (phone : String)
    (s : Session) : List (String × Session) :=
  (phone, s) :: sessions.filter (fun p => !(p.1 == phone))

/-- `clearSession(phoneNumber)`. -/
def removeSessionW (sessions : List (String × Session)) (phone : String) :
    List (String × Session) :=
  sessions.filter (fun p => !(p.1 == phone))

/-- One round of the webhook (`POST /api/ussd/webhook`): dispatch the newest
input token to the handler for the session's current state, then commit the
handler's writes. -/
def webhookStep (env : UssdEnv) (w : World) (phone input : String) :
    World × String :=
  let sess := getSessionW w phone
  let out :=
    match sess.state with
    | .mainMenu => handleMainMenu w.users w.txns phone input sess
    | .registerName => handleRegisterName w.users w.txns phone input sess
    | .registerPin => handleRegisterPin w.users w.txns phone input sess
    | .registerConfirmPin => handleRegisterConfirmPin env w.users w.txns phone input sess
    | .sendPhone => handleSendPhone w.users w.txns phone input sess
    | .sendAmount => handleSendAmount w.users w.txns phone input sess
    | .sendPin => handleSendPin env w.users w.txns phone input sess
    | .balancePin => handleBalancePin env w.users w.txns phone input sess
  let sessions :=
    match out.sess with
    | some s => setSessionW w.sessions phone s
    | none => removeSessionW w.sessions phone
  (⟨out.users, out.txns, sessions⟩, out.response)

/-- Run a sequence of webhook rounds, collecting the responses. -/
def runUssd (env : UssdEnv) (w : World) (phone : String)
    (inputs : List String) : World × List String :=
  inputs.foldl
    (fun acc input =>
      let st := webhookStep env acc.1 phone input
      (st.1, acc.2 ++ [st.2]))
    (w, [])

/-! ### The authenticated HTTP transaction route
(src/api/src/routes/transaction.js and the auth middleware) -/

/-- One call made to the external ledger service by the transaction route,
recorded in order. -/
inductive LedgerCall where
  | walletBalance (ref : String)
  | addrBalance (addr : String)
  | internalXfer (fromRef toRef : String) (amount : ℚ)
  | coinXfer (toAddr : String) (amount : ℚ)
deriving DecidableEq, Repr

/-- External collaborators of the HTTP route.  `walletBalance ref = none`
models `getSuiFlowWalletBalance` throwing (the route then falls back to the
address balance); `decrypt = none` models `decryptMnemonic` throwing;
`transferResult` is the resolution of the one external transfer call the
route awaits (`internalTransfer` and `sendSui` both catch internally and
return a result object rather than throwing). -/
structure HttpEnv where
  crypto : CryptoEnv
  walletBalance : String → Option ℚ
  addrBalance : String → ℚ
  decrypt : String → String → Option String
  transferResult : TransferResult

/-- Outcome of one HTTP request: status code, the `error` field of the JSON
body (`none` on success), both tables after the handler's writes, and the
ledger calls that were made. -/
structure HttpOut where
  status : Nat
  error : Option String
  users : List User
  txns : List Txn
  calls : List LedgerCall
deriving Repr

/-- The 423 body `checkUserStatus` returns for a locked account. -/
def lockedAccountMsg : String :=
  "Account is locked due to multiple failed login attempts. Please contact support."

/-- The thrown message of `decryptMnemonic` (encryption utilities), captured
as `transactionError.message` by the route's catch block. -/
def decryptFailMsg : String :=
  "Failed to decrypt mnemonic: Invalid PIN or corrupted data"

/-- The body of `POST /api/transaction/new` after the middleware chain
(src/api/src/routes/transaction.js:15-214), with `senderUser` being the
`req.userData` attached by `checkUserStatus`.  Note that both terminal
updates of the pending record call `addTransaction`, which INSERTS a new
row. -/
def transactionNewBody (env : HttpEnv) (users : List User) (txns : List Txn)
    (senderUser : User) (receiverPhone : String) (amount : ℚ) (pin : String) :
    HttpOut :=
  let senderPhone := senderUser.phone
  if senderPhone = receiverPhone then
    { status := 400, error := some "Cannot send SUI to yourself",
      users := users, txns := txns, calls := [] }
  else
    match getUser users receiverPhone with
    | none =>
      { status := 404,
        error := some "Receiver not found. Make sure the phone number is registered with SuiFlow.",
        users := users, txns := txns, calls := [] }
    | some receiverUser =>
      if !(verifyPinPhone env.crypto pin senderPhone senderUser.pinHash) then
        let newFA := senderUser.failedAttempts + 1
        let users' := updateUser users senderPhone newFA
        -- remainingAttempts = MAX_FAILED_ATTEMPTS - newFailedAttempts (an
        -- integer in the source; ≤ 0 exactly when MAX ≤ newFA)
        if MAX_FAILED_ATTEMPTS ≤ newFA then
          { status := 423,
            error := some "Account has been locked due to multiple failed PIN attempts. Please contact support.",
            users := users', txns := txns, calls := [] }
        else
          { status := 401,
            error := some ("Invalid PIN. " ++ toString (MAX_FAILED_ATTEMPTS - newFA)
              ++ " attempt(s) remaining before account lockout."),
            users := users', txns := txns, calls := [] }
      else
        let users' := if 0 < senderUser.failedAttempts then updateUser users senderPhone 0 else users
        let (senderBalance, calls) :=
          match senderUser.walletObjectId with
          | some ref =>
            match env.walletBalance ref with
            | some b => (b, [LedgerCall.walletBalance ref])
            | none => (env.addrBalance senderUser.suiAddress,
                [LedgerCall.walletBalance ref, LedgerCall.addrBalance senderUser.suiAddress])
          | none => (env.addrBalance senderUser.suiAddress,
              [LedgerCall.addrBalance senderUser.suiAddress])
        if senderBalance < amount then
          { status := 400,
            error := some ("Insufficient balance. You have " ++ toFixed senderBalance 6
              ++ " SUI, but tried to send " ++ toFixed amount 6 ++ " SUI."),
            users := users', txns := txns, calls := calls }
        else
          let pend := addTransaction txns
            { senderPhone := senderPhone, receiverPhone := receiverPhone,
              amount := amount, txHash := none, status := "pending" }
          let txns1 := pend.2
          match env.decrypt senderUser.encryptedMnemonic pin with
          | none =>
            let txns2 := (addTransaction txns1
              { senderPhone := senderPhone, receiverPhone := receiverPhone,
                amount := amount, txHash := none, status := "failed",
                errorMessage := some decryptFailMsg }).2
            { status := 500, error := some "Transaction failed",
              users := users', txns := txns2, calls := calls }
          | some _ =>
            let call :=
              match senderUser.walletObjectId, receiverUser.walletObjectId with
              | some f, some t => LedgerCall.internalXfer f t amount
              | _, _ => LedgerCall.coinXfer receiverUser.suiAddress amount
            let calls' := calls ++ [call]
            match env.transferResult with
            | .success digest _ =>
              let txns2 := (addTransaction txns1
                { senderPhone := senderPhone, receiverPhone := receiverPhone,
                  amount := amount, txHash := some digest, status := "success" }).2
              { status := 201, error := none,
                users := users', txns := txns2, calls := calls' }
            | .failed e =>
              let txns2 := (addTransaction txns1
                { senderPhone := senderPhone, receiverPhone := receiverPhone,
                  amount := amount, txHash := none, status := "failed",
                  errorMessage := some e }).2
              { status := 400, error := some ("Transaction failed: " ++ e),
                users := users', txns := txns2, calls := calls' }

/-- `POST /api/transaction/new` including the `checkUserStatus` middleware
(auth middleware): for a user-role token it loads the account and rejects
with 423 when `user.failedAttempts >= 3`, before the route body runs.
`authPhone` is the phone carried by the verified JWT. -/
def transactionNewRoute (env : HttpEnv) (users : List User) (txns : List Txn)
    (authPhone receiverPhone : String) (amount : ℚ) (pin : String) : HttpOut :=
  match getUser users authPhone with
  | none =>
    { status := 404, error := some "User account not found.",
      users := users, txns := txns, calls := [] }
  | some user =>
    if 3 ≤ user.failedAttempts then
      { status := 423, error := some lockedAccountMsg,
        users := users, txns := txns, calls := [] }
    else
      transactionNewBody env users txns user receiverPhone amount pin

/-! ### Concrete fixtures for witnesses and counterexamples -/

/-- Concrete stand-in for the external PBKDF2 in closed evaluations. -/
def cCrypto : CryptoEnv := ⟨fun s => "H" ++ s⟩

/-- A registered sender whose PIN is `"1234"`, with a chosen
failed-attempt count. -/
def mkSender (fa : Nat) : User :=
  { phone := "+111", fullName := "Alice", suiAddress := "0xaaaa1111bbbb2222cccc",
    publicKey := "PKA", encryptedMnemonic := "ENCA",
    pinHash := hashPinPhone cCrypto "1234" "+111",
    failedAttempts := fa, walletObjectId := none }

/-- A registered receiver. -/
def cBob : User :=
  { phone := "+222", fullName := "Bob", suiAddress := "0xbbbb3333dddd4444eeee",
    publicKey := "PKB", encryptedMnemonic := "ENCB",
    pinHash := hashPinPhone cCrypto "5678" "+222",
    failedAttempts := 0, walletObjectId := none }

/-- USSD environment with a chosen external transfer result. -/
def mkUssdEnv (r : TransferResult) : UssdEnv :=
  { crypto := cCrypto, getBalance := fun _ => 100, sendSui := fun _ _ _ => r,
    decryptMnemonic := fun m _ => m, encryptMnemonic := fun m p => m ++ "|" ++ p,
    walletAddress := "0x1234567890abcdef", walletPublicKey := "PUB",
    walletMnemonic := "WORDS" }

/-- A session sitting at the SendPin step (recipient Bob, amount 5). -/
def cSendSess : Session :=
  ⟨.sendPin, { receiverPhone := some "+222", receiverName := some "Bob",
               amount := some 5 }⟩

/-- A session sitting at the SendAmount step (recipient Bob). -/
def cAmountSess : Session :=
  ⟨.sendAmount, { receiverPhone := some "+222", receiverName := some "Bob" }⟩

/-- A session sitting at the confirm-PIN step of a registration. -/
def cConfirmSess : Session :=
  ⟨.registerConfirmPin, { fullName := some "Jane Doe", pin := some "1234" }⟩

/-- HTTP environment whose external transfer call fails. -/
def cHttpEnvFail : HttpEnv :=
  { crypto := cCrypto, walletBalance := fun _ => none, addrBalance := fun _ => 100,
    decrypt := fun m _ => some m, transferResult := .failed "Insufficient gas" }

/-- Environment for the registration scenario. -/
def cRegEnv : UssdEnv := mkUssdEnv (.failed "")

/-- The terminal response of the concrete registration scenario. -/
def c9SuccessMsg : String :=
  "END Registration Successful!\n\nWelcome Jane Doe!\nYour SuiFlow wallet is ready.\n\nAddress: 0x12345678...\n\nYou will receive 0.02 SUI for gas fees shortly."

/-! ### Helper lemmas -/

/-- Appending concatenates the character data. -/
theorem string_data_append (s t : String) : (s ++ t).data = s.data ++ t.data := by
  cases s
  cases t
  rfl

/-- A character of the left part survives appending. -/
theorem string_append_data_get (s t : String) (i : Nat) (c : Char)
    (h : s.data.get? i = some c) : (s ++ t).data.get? i = some c := by
  rw [string_data_append]
  have hlt : i < s.data.length := by
    rcases List.get?_eq_some.mp h with ⟨hl, _⟩
    exact hl
  rw [List.get?_append hlt]
  exact h

/-- Strings differing at one character position are different. -/
theorem string_ne_of_get (s t : String) (i : Nat) (a b : Char)
    (ha : s.data.get? i = some a) (hb : t.data.get? i = some b)
    (hab : a ≠ b) : s ≠ t := by
  intro h
  rw [h] at ha
  rw [ha] at hb
  exact hab (Option.some.inj hb)

/-- The invalid-PIN re-prompt of the send flow is never the lockout
response (they differ at character 4). -/
theorem sendInvalidPinMsg_ne_lockout (r : Nat) : sendInvalidPinMsg r ≠ lockoutMsg := by
  apply string_ne_of_get _ _ 4 'S' 'A' _ (by decide) (by decide)
  unfold sendInvalidPinMsg
  apply string_append_data_get
  apply string_append_data_get
  decide

/-- The invalid-PIN re-prompt of the balance flow is never the lockout
response (they differ at character 4). -/
theorem balanceInvalidPinMsg_ne_lockout (r : Nat) : balanceInvalidPinMsg r ≠ lockoutMsg := by
  apply string_ne_of_get _ _ 4 'C' 'A' _ (by decide) (by decide)
  unfold balanceInvalidPinMsg
  apply string_append_data_get
  apply string_append_data_get
  decide

/-- Looking up the updated phone after `updateUser` sees the new counter. -/
theorem getUser_updateUser_self (users : List User) (phone : String) (fa : Nat) :
    getUser (updateUser users phone fa) phone
      = (getUser users phone).map (fun u => { u with failedAttempts := fa }) := by
  induction users with
  | nil => rfl
  | cons u us ih =>
      unfold getUser updateUser at ih ⊢
      rw [List.map_cons]
      by_cases hb : (u.phone == phone) = true
      · rw [if_pos hb]
        simp only [List.find?_cons, hb, Option.map_some]
        rfl
      · rw [if_neg hb]
        have hb' : (u.phone == phone) = false := by simpa using hb
        simp only [List.find?_cons, hb']
        exact ih

/-- Looking up a different phone after `updateUser` is unchanged. -/
theorem getUser_updateUser_ne (users : List User) (phone q : String) (fa : Nat)
    (h : q ≠ phone) :
    getUser (updateUser users phone fa) q = getUser users q := by
  induction users with
  | nil => rfl
  | cons u us ih =>
      unfold getUser updateUser at ih ⊢
      rw [List.map_cons]
      by_cases hup : (u.phone == phone) = true
      · have hnq : (u.phone == q) = false := by
          have he : u.phone = phone := beq_iff_eq.mp hup
          simp [he]
          exact fun hh => h hh.symm
        rw [if_pos hup]
        simp only [List.find?_cons, hnq]
        exact ih
      · rw [if_neg hup]
        by_cases huq : (u.phone == q) = true
        · simp only [List.find?_cons, huq]
        · have huq' : (u.phone == q) = false := by simpa using huq
          simp only [List.find?_cons, huq']
          exact ih

/-- The generic send-flow error is not the lockout response. -/
theorem sendGenericErrorMsg_ne_lockout : sendGenericErrorMsg ≠ lockoutMsg := by
  decide

/-- The insufficient-balance response is not the lockout response. -/
theorem insufficientMsg_ne_lockout (b a : ℚ) :
    ("END Insufficient Balance\n\nYou have: " ++ formatSuiAmount b
      ++ "\nTrying to send: " ++ formatSuiAmount a) ≠ lockoutMsg := by
  apply string_ne_of_get _ _ 4 'I' 'A' _ (by decide) (by decide)
  repeat' apply string_append_data_get
  decide

/-- The transfer-outcome response is not the lockout response. -/
theorem sendResultMsg_ne_lockout (a : ℚ) (n : String) (r : TransferResult) :
    sendResultMsg a n r ≠ lockoutMsg := by
  cases r with
  | success d e =>
      apply string_ne_of_get _ _ 4 'T' 'A' _ (by decide) (by decide)
      simp only [sendResultMsg]
      repeat' apply string_append_data_get
      decide
  | failed e =>
      apply string_ne_of_get _ _ 4 'T' 'A' _ (by decide) (by decide)
      simp only [sendResultMsg]
      repeat' apply string_append_data_get
      decide

/-- The balance display is not the lockout response. -/
theorem balanceDisplayMsg_ne_lockout (b : ℚ) (addr : String) :
    ("END Your SuiFlow Balance\n\n" ++ formatSuiAmount b ++ "\n\nAddress: "
      ++ addr.take 16 ++ "...") ≠ lockoutMsg := by
  apply string_ne_of_get _ _ 4 'Y' 'A' _ (by decide) (by decide)
  repeat' apply string_append_data_get
  decide

/-! ### Claim theorems -/

/-- C7: in the SendAmount state the inputs `"0"`, `"-5"`, `"abc"` and
`"2000000"` are each rejected with a `CON` re-prompt that leaves the
session unchanged (no state advance), while the boundary inputs
`"0.000001"` (MIN_AMOUNT) and `"1000000"` (MAX_AMOUNT) are accepted and
advance the session to the SendPin state with the parsed amount stored. -/
theorem send_amount_validation_cases :
    ((handleSendAmount [] [] "+111" "0" cAmountSess).sess = some cAmountSess
      ∧ (handleSendAmount [] [] "+111" "0" cAmountSess).response
          = "CON Send SUI\n\nTo: Bob\n\nInvalid amount.\nEnter amount (SUI):")
    ∧ ((handleSendAmount [] [] "+111" "-5" cAmountSess).sess = some cAmountSess
      ∧ (handleSendAmount [] [] "+111" "-5" cAmountSess).response
          = "CON Send SUI\n\nTo: Bob\n\nInvalid amount.\nEnter amount (SUI):")
    ∧ ((handleSendAmount [] [] "+111" "abc" cAmountSess).sess = some cAmountSess
      ∧ (handleSendAmount [] [] "+111" "abc" cAmountSess).response
          = "CON Send SUI\n\nTo: Bob\n\nInvalid amount.\nEnter amount (SUI):")
    ∧ ((handleSendAmount [] [] "+111" "2000000" cAmountSess).sess = some cAmountSess
      ∧ (handleSendAmount [] [] "+111" "2000000" cAmountSess).response
          = "CON Send SUI\n\nTo: Bob\n\nMaximum amount is 1,000,000 SUI.\nEnter amount (SUI):")
    ∧ ((handleSendAmount [] [] "+111" "0.000001" cAmountSess).sess
        = some ⟨.sendPin, { receiverPhone := some "+222", receiverName := some "Bob",
                            amount := some (1 / 1000000) }⟩)
    ∧ ((handleSendAmount [] [] "+111" "1000000" cAmountSess).sess
        = some ⟨.sendPin, { receiverPhone := some "+222", receiverName := some "Bob",
                            amount := some 1000000 }⟩) := by
  decide

/-- C2 (the code violates the claim): on `POST /api/transaction/new`, after
the Pending record is created and the external transfer fails, the code
calls `addTransaction` again — an INSERT — so the original record is never
updated: the table ends with the first record still `pending` forever and a
second, duplicate record carrying the terminal `failed` outcome.  Evaluated
at a concrete failing run (sender `+111`, receiver `+222`, amount 5,
correct PIN, transfer failing with `Insufficient gas`). -/
theorem pending_record_left_pending_and_duplicated :
    (transactionNewBody cHttpEnvFail [mkSender 0, cBob] [] (mkSender 0) "+222" 5 "1234").status
      = 400
    ∧ (transactionNewBody cHttpEnvFail [mkSender 0, cBob] [] (mkSender 0) "+222" 5 "1234").txns
      = [⟨1, "+111", "+222", 5, none, "pending", none⟩,
         ⟨2, "+111", "+222", 5, none, "failed", some "Insufficient gas"⟩] := by
  decide

/-- C4 counterexample: after a mismatched confirmation PIN (stored `"1234"`,
entered `"9999"`), the session is back in the RegisterPin state but
`session.data.pin` still holds the old value `"1234"` — the claim that no
field of the session retains the old PIN is false. -/
theorem confirmpin_mismatch_retains_old_pin :
    (handleRegisterConfirmPin cRegEnv [] [] "+100" "9999" cConfirmSess).sess
      = some ⟨.registerPin, { fullName := some "Jane Doe", pin := some "1234" }⟩
    ∧ ((handleRegisterConfirmPin cRegEnv [] [] "+100" "9999" cConfirmSess).sess.map
        (fun s => s.data.pin)) = some (some "1234") := by
  decide

/-- C1 counterexample: a sender whose `failedAttempts` already reached
`MAX_FAILED_ATTEMPTS = 3` submits the CORRECT PIN in the SendPin flow; the
handler does not return the lockout response — it resets `failedAttempts`
to 0 and proceeds through the balance check to the transfer, returning the
transaction-successful response. -/
theorem correct_pin_after_lockout_proceeds :
    (handleSendPin (mkUssdEnv (.success "DIGESTABCDEFGHIJKLMNOP" "url")) [mkSender 3, cBob]
        [] "+111" "1234" cSendSess).response
      = "END Transaction Successful!\n\nSent: 5.000 SUI\nTo: Bob\n\nTX Hash: DIGESTABCDEFGHIJ..."
    ∧ (handleSendPin (mkUssdEnv (.success "DIGESTABCDEFGHIJKLMNOP" "url")) [mkSender 3, cBob]
        [] "+111" "1234" cSendSess).response ≠ lockoutMsg
    ∧ (getUser (handleSendPin (mkUssdEnv (.success "DIGESTABCDEFGHIJKLMNOP" "url"))
        [mkSender 3, cBob] [] "+111" "1234" cSendSess).users "+111").map User.failedAttempts
      = some 0 := by
  decide

/-- C3 counterexample: two runs of the SendPin success path that differ only
in the resolution of the external transfer produce different terminal
responses — the protocol response is computed from the awaited transfer
resolution, so it is not independent of it. -/
theorem sendpin_response_depends_on_transfer_result :
    (handleSendPin (mkUssdEnv (.failed "MoveAbort in transfer")) [mkSender 0, cBob]
        [] "+111" "1234" cSendSess).response
      = "END Transaction Failed\n\nMoveAbort in transfer"
    ∧ (handleSendPin (mkUssdEnv (.success "DIGESTABCDEFGHIJKLMNOP" "url")) [mkSender 0, cBob]
        [] "+111" "1234" cSendSess).response
      = "END Transaction Successful!\n\nSent: 5.000 SUI\nTo: Bob\n\nTX Hash: DIGESTABCDEFGHIJ..."
    ∧ (handleSendPin (mkUssdEnv (.failed "MoveAbort in transfer")) [mkSender 0, cBob]
        [] "+111" "1234" cSendSess).response
      ≠ (handleSendPin (mkUssdEnv (.success "DIGESTABCDEFGHIJKLMNOP" "url")) [mkSender 0, cBob]
        [] "+111" "1234" cSendSess).response := by
  decide

/-- C10: on the authenticated HTTP API, a user whose `failedAttempts` is at
least 3 has every `POST /api/transaction/new` request rejected by the
`checkUserStatus` middleware with the 423 locked response before the route
body runs: no PIN verification, no ledger call, and both tables are
untouched, so no HTTP operation on a locked account can reset the counter
or move funds. -/
theorem http_locked_account_rejected
    (env : HttpEnv) (users : List User) (txns : List Txn)
    (authPhone receiverPhone : String) (amount : ℚ) (pin : String) (u : User)
    (hu : getUser users authPhone = some u)
    (hlock : 3 ≤ u.failedAttempts) :
    transactionNewRoute env users txns authPhone receiverPhone amount pin
      = { status := 423, error := some lockedAccountMsg,
          users := users, txns := txns, calls := [] } := by
  unfold transactionNewRoute
  rw [hu]
  simp [hlock]

/-- C10 witness. -/
theorem http_locked_account_rejected_witness :
    getUser [mkSender 3, cBob] "+111" = some (mkSender 3)
    ∧ 3 ≤ (mkSender 3).failedAttempts
    ∧ transactionNewRoute cHttpEnvFail [mkSender 3, cBob] [] "+111" "+222" 5 "1234"
      = { status := 423, error := some lockedAccountMsg,
          users := [mkSender 3, cBob], txns := [], calls := [] } :=
  ⟨by decide, by decide,
    http_locked_account_rejected cHttpEnvFail [mkSender 3, cBob] [] "+111" "+222" 5 "1234"
      (mkSender 3) (by decide) (by decide)⟩

/-- C6: a successful PIN verification always leaves `failedAttempts` at 0 in
both the SendPin and BalancePin flows: a nonzero counter is reset to 0 and
a zero counter stays 0 (the reset is idempotent). -/
theorem valid_pin_resets_failed_attempts
    (env : UssdEnv) (users : List User) (txns : List Txn) (phone input : String)
    (sess : Session) (u : User)
    (hu : getUser users phone = some u)
    (hform : isPin4 input = true)
    (hok : verifyPinPhone env.crypto input phone u.pinHash = true) :
    ((getUser (handleSendPin env users txns phone input sess).users phone).map
        User.failedAttempts = some 0)
    ∧ ((getUser (handleBalancePin env users txns phone input sess).users phone).map
        User.failedAttempts = some 0) := by
  have husers : (getUser (if 0 < u.failedAttempts then updateUser users phone 0 else users)
      phone).map User.failedAttempts = some 0 := by
    by_cases h0 : 0 < u.failedAttempts
    · simp [h0, getUser_updateUser_self, hu]
    · have hz : u.failedAttempts = 0 := Nat.eq_zero_of_not_pos h0
      simp [h0, hu, hz]
  have hsend : (handleSendPin env users txns phone input sess).users
      = (if 0 < u.failedAttempts then updateUser users phone 0 else users) := by
    unfold handleSendPin
    rw [hu]
    simp only [hform, hok, Bool.not_true, Bool.false_eq_true, if_false]
    repeat' split
    all_goals rfl
  have hbal : (handleBalancePin env users txns phone input sess).users
      = (if 0 < u.failedAttempts then updateUser users phone 0 else users) := by
    unfold handleBalancePin
    rw [hu]
    simp only [hform, hok, Bool.not_true, Bool.false_eq_true, if_false]
  rw [hsend, hbal]
  exact ⟨husers, husers⟩

/-- C6 witness. -/
theorem valid_pin_resets_failed_attempts_witness :
    getUser [mkSender 2, cBob] "+111" = some (mkSender 2)
    ∧ isPin4 "1234" = true
    ∧ verifyPinPhone (mkUssdEnv (.failed "")).crypto "1234" "+111" (mkSender 2).pinHash = true
    ∧ ((getUser (handleSendPin (mkUssdEnv (.failed "")) [mkSender 2, cBob] [] "+111" "1234"
          cSendSess).users "+111").map User.failedAttempts = some 0)
    ∧ ((getUser (handleBalancePin (mkUssdEnv (.failed "")) [mkSender 2, cBob] [] "+111" "1234"
          cSendSess).users "+111").map User.failedAttempts = some 0) :=
  ⟨by decide, by decide, by decide,
    valid_pin_resets_failed_attempts (mkUssdEnv (.failed "")) [mkSender 2, cBob] [] "+111"
      "1234" cSendSess (mkSender 2) (by decide) (by decide) (by decide)⟩

/-- C5: a well-formed but invalid PIN submission in the SendPin and
BalancePin steps increments `failedAttempts` by exactly 1, and the lockout
response is produced exactly on the submissions that bring the counter to
`MAX_FAILED_ATTEMPTS = 3` or beyond — never earlier. -/
theorem invalid_pin_increments_and_locks_at_three
    (env : UssdEnv) (users : List User) (txns : List Txn) (phone input : String)
    (sess : Session) (u : User)
    (hu : getUser users phone = some u)
    (hform : isPin4 input = true)
    (hbad : verifyPinPhone env.crypto input phone u.pinHash = false) :
    ((getUser (handleSendPin env users txns phone input sess).users phone).map
        User.failedAttempts = some (u.failedAttempts + 1))
    ∧ ((getUser (handleBalancePin env users txns phone input sess).users phone).map
        User.failedAttempts = some (u.failedAttempts + 1))
    ∧ ((handleSendPin env users txns phone input sess).response = lockoutMsg
        ↔ MAX_FAILED_ATTEMPTS ≤ u.failedAttempts + 1)
    ∧ ((handleBalancePin env users txns phone input sess).response = lockoutMsg
        ↔ MAX_FAILED_ATTEMPTS ≤ u.failedAttempts + 1) := by
  unfold handleSendPin handleBalancePin
  rw [hu]
  simp only [hform, hbad, Bool.not_true, Bool.not_false, Bool.false_eq_true, if_false, if_true]
  by_cases h3 : MAX_FAILED_ATTEMPTS ≤ u.failedAttempts + 1
  · simp [h3, getUser_updateUser_self, hu]
  · simp [h3, getUser_updateUser_self, hu,
      sendInvalidPinMsg_ne_lockout, balanceInvalidPinMsg_ne_lockout]

/-- C5 witness. -/
theorem invalid_pin_increments_and_locks_at_three_witness :
    getUser [mkSender 2, cBob] "+111" = some (mkSender 2)
    ∧ isPin4 "9999" = true
    ∧ verifyPinPhone (mkUssdEnv (.failed "")).crypto "9999" "+111" (mkSender 2).pinHash = false
    ∧ ((getUser (handleSendPin (mkUssdEnv (.failed "")) [mkSender 2, cBob] [] "+111" "9999"
          cSendSess).users "+111").map User.failedAttempts = some 3
        ∧ ((handleSendPin (mkUssdEnv (.failed "")) [mkSender 2, cBob] [] "+111" "9999"
            cSendSess).response = lockoutMsg ↔ MAX_FAILED_ATTEMPTS ≤ 3)) :=
  ⟨by decide, by decide, by decide,
    ((invalid_pin_increments_and_locks_at_three (mkUssdEnv (.failed "")) [mkSender 2, cBob]
      [] "+111" "9999" cSendSess (mkSender 2) (by decide) (by decide) (by decide)).1),
    ((invalid_pin_increments_and_locks_at_three (mkUssdEnv (.failed "")) [mkSender 2, cBob]
      [] "+111" "9999" cSendSess (mkSender 2) (by decide) (by decide) (by decide)).2.2.1)⟩

/-- C1 (amended): for an account whose `failedAttempts` has reached
`MAX_FAILED_ATTEMPTS = 3`, a subsequent INVALID PIN submission in the USSD
SendPin and BalancePin flows yields the lockout response and ends the
session; but there is no lockout gate before verification, so a CORRECT
PIN submission is still accepted: it resets `failedAttempts` to 0 and
proceeds past verification rather than yielding the lockout response. -/
theorem ussd_lockout_only_on_invalid_pin
    (env : UssdEnv) (users : List User) (txns : List Txn) (phone input : String)
    (sess : Session) (u : User)
    (hu : getUser users phone = some u)
    (hform : isPin4 input = true)
    (hfa : MAX_FAILED_ATTEMPTS ≤ u.failedAttempts) :
    (verifyPinPhone env.crypto input phone u.pinHash = false →
        (handleSendPin env users txns phone input sess).response = lockoutMsg
        ∧ (handleSendPin env users txns phone input sess).sess = none
        ∧ (handleBalancePin env users txns phone input sess).response = lockoutMsg
        ∧ (handleBalancePin env users txns phone input sess).sess = none)
    ∧ (verifyPinPhone env.crypto input phone u.pinHash = true →
        ((getUser (handleSendPin env users txns phone input sess).users phone).map
            User.failedAttempts = some 0)
        ∧ (handleSendPin env users txns phone input sess).response ≠ lockoutMsg
        ∧ ((getUser (handleBalancePin env users txns phone input sess).users phone).map
            User.failedAttempts = some 0)
        ∧ (handleBalancePin env users txns phone input sess).response ≠ lockoutMsg) := by
  constructor
  · intro hbad
    have h3 : MAX_FAILED_ATTEMPTS ≤ u.failedAttempts + 1 := le_trans hfa (Nat.le_succ _)
    unfold handleSendPin handleBalancePin
    rw [hu]
    simp [hform, hbad, h3]
  · intro hok
    have h0 : 0 < u.failedAttempts := lt_of_lt_of_le (by decide) hfa
    have husers : (getUser (if 0 < u.failedAttempts then updateUser users phone 0 else users)
        phone).map User.failedAttempts = some 0 := by
      simp [h0, getUser_updateUser_self, hu]
    have hsend : (handleSendPin env users txns phone input sess).users
        = (if 0 < u.failedAttempts then updateUser users phone 0 else users) := by
      unfold handleSendPin
      rw [hu]
      simp only [hform, hok, Bool.not_true, Bool.false_eq_true, if_false]
      repeat' split
      all_goals rfl
    have hbal : (handleBalancePin env users txns phone input sess).users
        = (if 0 < u.failedAttempts then updateUser users phone 0 else users) := by
      unfold handleBalancePin
      rw [hu]
      simp only [hform, hok, Bool.not_true, Bool.false_eq_true, if_false]
    have hne_send : (handleSendPin env users txns phone input sess).response ≠ lockoutMsg := by
      unfold handleSendPin
      rw [hu]
      simp only [hform, hok, Bool.not_true, Bool.false_eq_true, if_false]
      repeat' split
      all_goals
        first
        | exact sendGenericErrorMsg_ne_lockout
        | exact insufficientMsg_ne_lockout _ _
        | exact sendResultMsg_ne_lockout _ _ _
    have hne_bal : (handleBalancePin env users txns phone input sess).response ≠ lockoutMsg := by
      unfold handleBalancePin
      rw [hu]
      simp only [hform, hok, Bool.not_true, Bool.false_eq_true, if_false]
      exact balanceDisplayMsg_ne_lockout _ _
    rw [hsend, hbal]
    exact ⟨husers, hne_send, husers, hne_bal⟩

/-- C1 witness (invalid side: wrong PIN at the threshold locks; valid side:
correct PIN resets the counter). -/
theorem ussd_lockout_only_on_invalid_pin_witness :
    getUser [mkSender 3, cBob] "+111" = some (mkSender 3)
    ∧ isPin4 "9999" = true
    ∧ MAX_FAILED_ATTEMPTS ≤ (mkSender 3).failedAttempts
    ∧ (verifyPinPhone (mkUssdEnv (.failed "")).crypto "9999" "+111" (mkSender 3).pinHash = false
        → (handleSendPin (mkUssdEnv (.failed "")) [mkSender 3, cBob] [] "+111" "9999"
            cSendSess).response = lockoutMsg
          ∧ (handleSendPin (mkUssdEnv (.failed "")) [mkSender 3, cBob] [] "+111" "9999"
            cSendSess).sess = none
          ∧ (handleBalancePin (mkUssdEnv (.failed "")) [mkSender 3, cBob] [] "+111" "9999"
            cSendSess).response = lockoutMsg
          ∧ (handleBalancePin (mkUssdEnv (.failed "")) [mkSender 3, cBob] [] "+111" "9999"
            cSendSess).sess = none)
    ∧ verifyPinPhone (mkUssdEnv (.failed "")).crypto "9999" "+111" (mkSender 3).pinHash = false :=
  ⟨by decide, by decide, by decide,
    (ussd_lockout_only_on_invalid_pin (mkUssdEnv (.failed "")) [mkSender 3, cBob] [] "+111"
      "9999" cSendSess (mkSender 3) (by decide) (by decide) (by decide)).1,
    by decide⟩

/-- C4 (amended): a mismatched confirmation PIN sends the session back to
the RegisterPin state with the mismatch re-prompt and no database write, so
the user must enter a fresh PIN (the next well-formed PIN entry overwrites
the stored one); however the session data — including the previously stored
PIN — is retained unchanged, because the session update merges fields and
never deletes them. -/
theorem confirmpin_mismatch_returns_to_registerpin
    (env : UssdEnv) (users : List User) (txns : List Txn) (phone input : String)
    (sess : Session)
    (h : input = "" ∨ sess.data.pin ≠ some input) :
    (handleRegisterConfirmPin env users txns phone input sess).sess
      = some ⟨.registerPin, sess.data⟩
    ∧ (handleRegisterConfirmPin env users txns phone input sess).response
      = "CON Register for SuiFlow\n\nPINs do not match.\nCreate a 4-digit PIN:"
    ∧ (handleRegisterConfirmPin env users txns phone input sess).users = users
    ∧ (∀ (newPin : String) (sess2 : Session), isPin4 newPin = true →
        (handleRegisterPin users txns phone newPin sess2).sess
          = some ⟨.registerConfirmPin, { sess2.data with pin := some newPin }⟩) := by
  have hc : (decide (input = "") || !(some input == sess.data.pin)) = true := by
    rcases h with h | h
    · simp [h]
    · have hb : (some input == sess.data.pin) = false := by
        simp only [beq_eq_false_iff_ne, ne_eq]
        exact fun hh => h hh.symm
      simp [hb]
  unfold handleRegisterConfirmPin
  simp only [hc, if_true]
  refine ⟨?_, ?_, ?_, ?_⟩
  · first | trivial | rfl
  · first | trivial | rfl
  · first | trivial | rfl
  · intro newPin sess2 hp
    unfold handleRegisterPin
    simp [hp]

/-- C4 witness. -/
theorem confirmpin_mismatch_returns_to_registerpin_witness :
    ("9999" = "" ∨ cConfirmSess.data.pin ≠ some "9999")
    ∧ ((handleRegisterConfirmPin cRegEnv [] [] "+100" "9999" cConfirmSess).sess
        = some ⟨.registerPin, cConfirmSess.data⟩
      ∧ (handleRegisterConfirmPin cRegEnv [] [] "+100" "9999" cConfirmSess).response
        = "CON Register for SuiFlow\n\nPINs do not match.\nCreate a 4-digit PIN:"
      ∧ (handleRegisterConfirmPin cRegEnv [] [] "+100" "9999" cConfirmSess).users = []) :=
  ⟨Or.inr (by decide),
    ⟨(confirmpin_mismatch_returns_to_registerpin cRegEnv [] [] "+100" "9999" cConfirmSess
        (Or.inr (by decide))).1,
      (confirmpin_mismatch_returns_to_registerpin cRegEnv [] [] "+100" "9999" cConfirmSess
        (Or.inr (by decide))).2.1,
      (confirmpin_mismatch_returns_to_registerpin cRegEnv [] [] "+100" "9999" cConfirmSess
        (Or.inr (by decide))).2.2.1⟩⟩

/-- C3 (amended): the SendPin success path AWAITS the external transfer: the
terminal response is computed from the transfer's resolution (success with
truncated digest, or failure with the error message), and the transaction
record is written with that terminal outcome before the response is
returned; the session ends either way. -/
theorem sendpin_awaits_transfer_and_reports_result
    (env : UssdEnv) (users : List User) (txns : List Txn) (phone input : String)
    (sess : Session) (u recv : User) (a : ℚ)
    (hu : getUser users phone = some u)
    (hform : isPin4 input = true)
    (hok : verifyPinPhone env.crypto input phone u.pinHash = true)
    (hamt : sess.data.amount = some a)
    (hbal : ¬ env.getBalance u.suiAddress < a)
    (hneq : sess.data.receiverPhone.getD "" ≠ phone)
    (hrecv : getUser users (sess.data.receiverPhone.getD "") = some recv) :
    (handleSendPin env users txns phone input sess).response
      = sendResultMsg a (sess.data.receiverName.getD "undefined")
          (env.sendSui (env.decryptMnemonic u.encryptedMnemonic input) recv.suiAddress a)
    ∧ (handleSendPin env users txns phone input sess).txns
      = (addTransaction txns
          { senderPhone := phone, receiverPhone := sess.data.receiverPhone.getD "",
            amount := a,
            txHash := (env.sendSui (env.decryptMnemonic u.encryptedMnemonic input)
              recv.suiAddress a).digestOpt,
            status := (env.sendSui (env.decryptMnemonic u.encryptedMnemonic input)
              recv.suiAddress a).statusStr,
            errorMessage := (env.sendSui (env.decryptMnemonic u.encryptedMnemonic input)
              recv.suiAddress a).errorOpt }).2
    ∧ (handleSendPin env users txns phone input sess).sess = none := by
  have hrecv2 : getUser (if 0 < u.failedAttempts then updateUser users phone 0 else users)
      (sess.data.receiverPhone.getD "") = some recv := by
    by_cases h0 : 0 < u.failedAttempts
    · rw [if_pos h0, getUser_updateUser_ne _ _ _ _ hneq]
      exact hrecv
    · rw [if_neg h0]
      exact hrecv
  unfold handleSendPin
  rw [hu]
  simp only [hform, hok, Bool.not_true, Bool.false_eq_true, if_false, hamt]
  rw [if_neg hbal]
  simp only [hrecv2]
  refine ⟨?_, ?_, ?_⟩ <;> first | trivial | rfl

/-- C3 witness. -/
theorem sendpin_awaits_transfer_and_reports_result_witness :
    getUser [mkSender 0, cBob] "+111" = some (mkSender 0)
    ∧ cSendSess.data.amount = some 5
    ∧ ¬ (mkUssdEnv (.failed "gas")).getBalance (mkSender 0).suiAddress < 5
    ∧ cSendSess.data.receiverPhone.getD "" ≠ "+111"
    ∧ getUser [mkSender 0, cBob] (cSendSess.data.receiverPhone.getD "") = some cBob
    ∧ ((handleSendPin (mkUssdEnv (.failed "gas")) [mkSender 0, cBob] [] "+111" "1234"
          cSendSess).response
        = sendResultMsg 5 (cSendSess.data.receiverName.getD "undefined")
            ((mkUssdEnv (.failed "gas")).sendSui
              ((mkUssdEnv (.failed "gas")).decryptMnemonic (mkSender 0).encryptedMnemonic "1234")
              cBob.suiAddress 5)) :=
  ⟨by decide, by decide, by decide, by decide, by decide,
    (sendpin_awaits_transfer_and_reports_result (mkUssdEnv (.failed "gas")) [mkSender 0, cBob]
      [] "+111" "1234" cSendSess (mkSender 0) cBob 5 (by decide) (by decide) (by decide)
      (by decide) (by decide) (by decide) (by decide)).1⟩

/-- C8: an input equal to the sender's own phone number in the SendRecipient
state never advances the session (it stays unchanged, with a `CON`
re-prompt), and the HTTP transaction endpoint rejects a request whose
receiver equals the sender's phone with status 400 before any ledger call
and without touching either table. -/
theorem self_transfer_rejected :
    (∀ (users : List User) (txns : List Txn) (phone : String) (sess : Session),
        (handleSendPhone users txns phone phone sess).sess = some sess
        ∧ (handleSendPhone users txns phone phone sess).users = users
        ∧ (handleSendPhone users txns phone phone sess).response.data.head? = some 'C')
    ∧ (∀ (env : HttpEnv) (users : List User) (txns : List Txn) (u : User)
        (amount : ℚ) (pin : String),
        transactionNewBody env users txns u u.phone amount pin
          = { status := 400, error := some "Cannot send SUI to yourself",
              users := users, txns := txns, calls := [] }) := by
  constructor
  · intro users txns phone sess
    unfold handleSendPhone
    by_cases h0 : phone = ""
    · subst h0
      refine ⟨?_, ?_, ?_⟩ <;> first | rfl | trivial | decide
    · by_cases hv : isValidPhoneStr phone = true
      · simp only [h0, hv, Bool.not_true, Bool.false_eq_true, eq_self_iff_true,
          ite_true, ite_false, if_true, if_false]
        refine ⟨?_, ?_, ?_⟩ <;> first | rfl | trivial | decide
      · have hv' : isValidPhoneStr phone = false := by simpa using hv
        simp only [h0, hv', Bool.not_false, eq_self_iff_true,
          ite_true, ite_false, if_true, if_false]
        refine ⟨?_, ?_, ?_⟩ <;> first | rfl | trivial | decide
  · intro env users txns u amount pin
    unfold transactionNewBody
    simp

/-- C9: from an empty database, the input sequence
`"" → "1" → "Jane Doe" → "1234" → "1234"` drives subscriber `+100` through
MainMenu, RegisterName, RegisterPin and RegisterConfirmPin to a terminal
`END` success response containing the truncated wallet address
(`0x12345678...`) and the configured funding amount (`0.02 SUI`), and the
account is created; and whenever the phone is already registered, a
confirm-PIN submission (the only step that creates accounts) returns the
terminal already-registered rejection and creates no second account. -/
theorem registration_end_to_end
    (users : List User) (txns : List Txn) (sess : Session) (u : User) (input : String)
    (hreg : getUser users "+100" = some u)
    (hpin : sess.data.pin = some input)
    (hne : input ≠ "") :
    ((runUssd cRegEnv ⟨[], [], []⟩ "+100" ["", "1", "Jane Doe", "1234", "1234"]).2.getLast?
        = some c9SuccessMsg
      ∧ (∃ pre post, c9SuccessMsg = pre ++ "0x12345678..." ++ post)
      ∧ (∃ pre post, c9SuccessMsg = pre ++ "0.02 SUI" ++ post)
      ∧ (getUser (runUssd cRegEnv ⟨[], [], []⟩ "+100"
          ["", "1", "Jane Doe", "1234", "1234"]).1.users "+100").map User.fullName
        = some "Jane Doe")
    ∧ ((handleRegisterConfirmPin cRegEnv users txns "+100" input sess).response
        = "END Registration failed.\n\nPhone number already registered."
      ∧ (handleRegisterConfirmPin cRegEnv users txns "+100" input sess).users = users) := by
  constructor
  · refine ⟨by decide,
      ⟨"END Registration Successful!\n\nWelcome Jane Doe!\nYour SuiFlow wallet is ready.\n\nAddress: ",
        "\n\nYou will receive 0.02 SUI for gas fees shortly.", by decide⟩,
      ⟨"END Registration Successful!\n\nWelcome Jane Doe!\nYour SuiFlow wallet is ready.\n\nAddress: 0x12345678...\n\nYou will receive ",
        " for gas fees shortly.", by decide⟩,
      by decide⟩
  · have hc : (decide (input = "") || !(some input == sess.data.pin)) = false := by
      simp [hne, hpin]
    unfold handleRegisterConfirmPin
    simp only [hc, Bool.false_eq_true, if_false]
    rw [hreg]
    exact ⟨rfl, rfl⟩

/-- C9 witness. -/
theorem registration_end_to_end_witness :
    getUser [⟨"+100", "Jane Doe", "0x1234567890abcdef", "PUB", "WORDS|1234",
        hashPinPhone cCrypto "1234" "+100", 0, none⟩] "+100"
      = some ⟨"+100", "Jane Doe", "0x1234567890abcdef", "PUB", "WORDS|1234",
        hashPinPhone cCrypto "1234" "+100", 0, none⟩
    ∧ cConfirmSess.data.pin = some "1234"
    ∧ ((handleRegisterConfirmPin cRegEnv [⟨"+100", "Jane Doe", "0x1234567890abcdef", "PUB",
          "WORDS|1234", hashPinPhone cCrypto "1234" "+100", 0, none⟩] [] "+100" "1234"
          cConfirmSess).response
        = "END Registration failed.\n\nPhone number already registered."
      ∧ (handleRegisterConfirmPin cRegEnv [⟨"+100", "Jane Doe", "0x1234567890abcdef", "PUB",
          "WORDS|1234", hashPinPhone cCrypto "1234" "+100", 0, none⟩] [] "+100" "1234"
          cConfirmSess).users
        = [⟨"+100", "Jane Doe", "0x1234567890abcdef", "PUB", "WORDS|1234",
            hashPinPhone cCrypto "1234" "+100", 0, none⟩]) :=
  ⟨by decide, by decide,
    (registration_end_to_end [⟨"+100", "Jane Doe", "0x1234567890abcdef", "PUB", "WORDS|1234",
        hashPinPhone cCrypto "1234" "+100", 0, none⟩] [] cConfirmSess
      ⟨"+100", "Jane Doe", "0x1234567890abcdef", "PUB", "WORDS|1234",
        hashPinPhone cCrypto "1234" "+100", 0, none⟩ "1234"
      (by decide) (by decide) (by decide)).2⟩

end SuiFlow
